import Mathlib

/-!
Verification development for the Agent Synapse backend
(prompt steering and streaming execution pipeline).

The Python source is shallowly embedded:
pure functions become Lean functions, the in-memory execution table and the
artifact store become explicit state threaded through the operations, and
Python floats are modelled as exact rationals.  Status values are the
literal strings the code stores.
-/

namespace AgentSynapse

/-! ## Prompt engine (src/backend/prompt_engine.py) -/

/-- Base persona prompt for the analyst role (PromptEngine.BASE_PROMPTS). -/
def BASE_PROMPT_ANALYST : String :=
  "You are a financial analyst agent specialized in data-driven insights and market analysis."

/-- Base persona prompt for the writer role. -/
def BASE_PROMPT_WRITER : String :=
  "You are a creative writer agent focused on compelling narratives and engaging content."

/-- Base persona prompt for the researcher role. -/
def BASE_PROMPT_RESEARCHER : String :=
  "You are a research agent that gathers, synthesizes, and analyzes information from multiple sources."

/-- Lookup into BASE_PROMPTS with the default used by
`BASE_PROMPTS.get(agent_role, BASE_PROMPTS["analyst"])`. -/
def BASE_PROMPTS_get (agent_role : String) : String :=
  if agent_role = "analyst" then BASE_PROMPT_ANALYST
  else if agent_role = "writer" then BASE_PROMPT_WRITER
  else if agent_role = "researcher" then BASE_PROMPT_RESEARCHER
  else BASE_PROMPT_ANALYST

/-- Density tier text returned for x < 0.3. -/
def DENSITY_EXECUTIVE_SUMMARY : String :=
  "OUTPUT_DENSITY: EXECUTIVE_SUMMARY
- Provide only key insights and conclusions
- Maximum 3-5 bullet points or brief paragraphs
- Avoid technical details unless absolutely critical
- Focus on actionable recommendations
- Keep total response under 200 words"

/-- Density tier text returned for 0.3 <= x < 0.7. -/
def DENSITY_DETAILED_REPORT : String :=
  "OUTPUT_DENSITY: DETAILED_REPORT
- Provide comprehensive analysis with supporting evidence
- Include relevant context and methodology
- Balance depth with readability
- Use structured formatting (headings, lists, paragraphs)
- Target 300-500 words with clear organization"

/-- Density tier text returned for x >= 0.7. -/
def DENSITY_RAW_VERBOSE : String :=
  "OUTPUT_DENSITY: RAW_VERBOSE
- Include all relevant data points and calculations
- Show your reasoning process step-by-step
- Provide extensive context and background information
- Include data sources, assumptions, and confidence levels
- Aim for thorough coverage (500+ words if needed)"

/-- Creativity tier text returned for y < 0.3. -/
def CREATIVITY_STRICTLY_FACTUAL : String :=
  "CREATIVITY_LEVEL: STRICTLY_FACTUAL
- Base all statements on verified data and established facts
- Avoid speculation or hypothetical scenarios
- Use conservative, evidence-based language (e.g., \"data shows\" rather than \"might indicate\")
- Cite sources or note data limitations when appropriate
- Maintain objectivity and avoid interpretive leaps
- Recommended Temperature: 0.2"

/-- Creativity tier text returned for 0.3 <= y < 0.7. -/
def CREATIVITY_BALANCED_INSIGHT : String :=
  "CREATIVITY_LEVEL: BALANCED_INSIGHT
- Blend factual analysis with reasonable inferences
- Use moderate speculation, clearly labeled as such
- Consider multiple perspectives and interpretations
- Balance empirical data with thoughtful extrapolation
- Acknowledge uncertainty where it exists
- Recommended Temperature: 0.5"

/-- Creativity tier text returned for y >= 0.7. -/
def CREATIVITY_SPECULATIVE_CREATIVE : String :=
  "CREATIVITY_LEVEL: SPECULATIVE_CREATIVE
- Generate novel insights and unexpected connections
- Explore hypothetical scenarios and \"what-if\" thinking
- Use creative framing, metaphors, and analogies
- Challenge conventional interpretations
- Embrace imaginative reasoning while noting speculative elements
- Recommended Temperature: 0.9"

/-- PromptEngine.get_density_instruction: map the X axis to a density tier. -/
def get_density_instruction (x : ℚ) : String :=
  if x < 0.3 then DENSITY_EXECUTIVE_SUMMARY
  else if x < 0.7 then DENSITY_DETAILED_REPORT
  else DENSITY_RAW_VERBOSE

/-- PromptEngine.get_creativity_instruction: map the Y axis to a creativity tier. -/
def get_creativity_instruction (y : ℚ) : String :=
  if y < 0.3 then CREATIVITY_STRICTLY_FACTUAL
  else if y < 0.7 then CREATIVITY_BALANCED_INSIGHT
  else CREATIVITY_SPECULATIVE_CREATIVE

/-- PromptEngine.get_temperature: linear mapping from the Y axis. -/
def get_temperature (y : ℚ) : ℚ :=
  0.2 + (y * 0.7)

/-- Fixed constraints block appended at the end of the assembled system prompt,
including the trailing newline of the Python triple-quoted literal. -/
def CONSTRAINTS_BLOCK : String :=
  "CONSTRAINTS:
- Respond in Markdown format for readability
- Be transparent about uncertainty and assumptions
- Maintain professional tone while matching the creativity level
"

/-- The transparent prompt breakdown (models.PromptComponents). -/
structure PromptComponents where
  base_prompt : String
  creativity_modifier : String
  density_modifier : String
  final_system_prompt : String
  user_query : String
  temperature : ℚ
deriving DecidableEq

/-- PromptEngine.build_prompt_components: build all prompt components. -/
def build_prompt_components (agent_role : String) (x y : ℚ) (user_query : String) :
    PromptComponents :=
  let base_prompt := BASE_PROMPTS_get agent_role
  let creativity_modifier := get_creativity_instruction y
  let density_modifier := get_density_instruction x
  let final_system_prompt :=
    base_prompt ++ "\n\n" ++ creativity_modifier ++ "\n\n" ++ density_modifier
      ++ "\n\n" ++ CONSTRAINTS_BLOCK
  { base_prompt := base_prompt
    creativity_modifier := creativity_modifier
    density_modifier := density_modifier
    final_system_prompt := final_system_prompt
    user_query := user_query
    temperature := get_temperature y }

/-- PromptEngine.build_full_prompt: assembled system prompt plus the labeled
user-query section and response cue. -/
def build_full_prompt (agent_role : String) (x y : ℚ) (user_query : String) : String :=
  let components := build_prompt_components agent_role x y user_query
  components.final_system_prompt ++ "\n\n---\nUSER QUERY:\n" ++ user_query
    ++ "\n\n---\nRESPONSE:\n"

/-! ## Token tracker (src/backend/token_tracker.py) -/

/-- TokenTracker.COST_PER_1K_INPUT. -/
def COST_PER_1K_INPUT : ℚ := 0.000075

/-- TokenTracker.COST_PER_1K_OUTPUT. -/
def COST_PER_1K_OUTPUT : ℚ := 0.0003

/-- TokenTracker.estimate_tokens: len(text) // 4. -/
def estimate_tokens (text : String) : ℕ :=
  text.length / 4

/-- Rounding to 6 decimal places, modelling Python round(cost, 6). -/
def round6 (c : ℚ) : ℚ :=
  (round (c * 1000000) : ℚ) / 1000000

/-- TokenTracker.calculate_cost: cost in USD rounded to 6 decimal places. -/
def calculate_cost (input_tokens output_tokens : ℕ) : ℚ :=
  let input_cost := ((input_tokens : ℚ) / 1000) * COST_PER_1K_INPUT
  let output_cost := ((output_tokens : ℚ) / 1000) * COST_PER_1K_OUTPUT
  round6 (input_cost + output_cost)

/-- Token usage summary (models.TokenUsage). -/
structure TokenUsage where
  prompt_tokens : ℕ
  completion_tokens : ℕ
  total_tokens : ℕ
  estimated_cost : ℚ
deriving DecidableEq

/-- TokenTracker.get_usage_summary: complete usage summary for one execution. -/
def get_usage_summary (input_text output_text : String) : TokenUsage :=
  let input_tokens := estimate_tokens input_text
  let output_tokens := estimate_tokens output_text
  let total_tokens := input_tokens + output_tokens
  let cost := calculate_cost input_tokens output_tokens
  { prompt_tokens := input_tokens
    completion_tokens := output_tokens
    total_tokens := total_tokens
    estimated_cost := cost }

/-! ## Request models (src/backend/models.py) -/

/-- XY pad coordinates after validation (models.XYPadPosition). -/
structure XYPadPosition where
  x : ℚ
  y : ℚ
deriving DecidableEq

/-- A validated execution request (models.AgentExecutionRequest). -/
structure AgentExecutionRequest where
  query : String
  xy_position : XYPadPosition
  agent_role : String
deriving DecidableEq

/-- Pydantic validation of an incoming request body: query length between 1
and 2000, both coordinates within the closed interval from 0 to 1, and
agent_role restricted to the literal enumeration.  The checks mirror the
Field constraints in models.py; validation happens before any handler runs. -/
def parse_request (query : String) (x y : ℚ) (agent_role : String) :
    Except String AgentExecutionRequest :=
  if query.length < 1 then Except.error "validation error: query too short"
  else if 2000 < query.length then Except.error "validation error: query too long"
  else if 0 ≤ x ∧ x ≤ 1 then
    if 0 ≤ y ∧ y ≤ 1 then
      if agent_role = "analyst" ∨ agent_role = "writer" ∨ agent_role = "researcher" then
        Except.ok { query := query, xy_position := { x := x, y := y }, agent_role := agent_role }
      else Except.error "validation error: agent_role not permitted"
    else Except.error "validation error: y out of range"
  else Except.error "validation error: x out of range"

/-! ## Generic string-keyed table

The executions dict and the artifact metadata files are both modelled as
association lists keyed by strings. -/

/-- Lookup of a key in a string-keyed table (dict access). -/
def lookupTable {α : Type} : List (String × α) → String → Option α
  | [], _ => none
  | (k, v) :: rest, key => if k = key then some v else lookupTable rest key

/-- Insert or replace a binding (dict assignment creating the key). -/
def insertTable {α : Type} : List (String × α) → String → α → List (String × α)
  | [], key, value => [(key, value)]
  | (k, v) :: rest, key, value =>
      if k = key then (k, value) :: rest else (k, v) :: insertTable rest key value

/-- Update the value at an existing key (dict assignment on a present key). -/
def updateTable {α : Type} : List (String × α) → String → (α → α) → List (String × α)
  | [], _, _ => []
  | (k, v) :: rest, key, f =>
      if k = key then (k, f v) :: rest else (k, v) :: updateTable rest key f

/-! ## Artifact manager (src/backend/artifact_manager.py)

The store is the set of `{artifact_id}_meta.json` metadata records keyed by
artifact identifier; get_artifact reads only this metadata (the content blob
is carried inline in the metadata, as in the source).  The nondeterministic
parts of save_artifact (the uuid-derived identifier and the timestamp) are
passed in as arguments. -/

/-- Artifact metadata (models.ArtifactMetadata). -/
structure ArtifactMetadata where
  artifact_id : String
  filename : String
  content : String
  created_at : ℕ
  file_type : String
  size_bytes : ℕ
  agent_role : String
deriving DecidableEq

/-- The artifact metadata store. -/
abbrev ArtifactStore : Type := List (String × ArtifactMetadata)

/-- File-extension lookup `extensions.get(file_type, "txt")`. -/
def extensions_get (file_type : String) : String :=
  if file_type = "markdown" then "md"
  else if file_type = "json" then "json"
  else if file_type = "text" then "txt"
  else "txt"

/-- ArtifactManager.save_artifact: build the metadata record and write it to
the store under the generated identifier. -/
def save_artifact (store : ArtifactStore) (content agent_role file_type : String)
    (artifact_id : String) (timestamp : ℕ) (timestamp_str : String) :
    ArtifactMetadata × ArtifactStore :=
  let ext := extensions_get file_type
  let filename := artifact_id ++ "_" ++ timestamp_str ++ "." ++ ext
  let metadata : ArtifactMetadata :=
    { artifact_id := artifact_id
      filename := filename
      content := content
      created_at := timestamp
      file_type := file_type
      size_bytes := content.utf8ByteSize
      agent_role := agent_role }
  (metadata, insertTable store artifact_id metadata)

/-- ArtifactManager.get_artifact: read the metadata record, or raise
FileNotFoundError when the metadata file does not exist. -/
def get_artifact (store : ArtifactStore) (artifact_id : String) :
    Except String ArtifactMetadata :=
  match lookupTable store artifact_id with
  | none => Except.error ("Artifact " ++ artifact_id ++ " not found")
  | some metadata => Except.ok metadata

/-! ## Execution registry and streaming orchestrator (src/backend/main.py) -/

/-- One entry of the in-memory executions dict.  The status field holds the
literal strings the code stores: "pending", "streaming", "completed",
"error".  artifact_id and error are the keys added on the terminal paths. -/
structure ExecutionRecord where
  request : AgentExecutionRequest
  prompt_components : PromptComponents
  status : String
  created_at : ℕ
  artifact_id : Option String := none
  error : Option String := none
deriving DecidableEq

/-- The process-wide executions dict. -/
abbrev Registry : Type := List (String × ExecutionRecord)

/-- Response of the execute endpoint (models.AgentExecutionResponse). -/
structure AgentExecutionResponse where
  execution_id : String
  prompt_components : PromptComponents
  stream_url : String
deriving DecidableEq

/-- One server-sent event of the stream, as parsed by the consumer. -/
inductive StreamEvent where
  | token (content : String)
  | complete (artifact_id : String) (token_usage : TokenUsage)
  | error (message : String)
deriving DecidableEq

/-- Behaviour of the backend streaming call for one execution: either it
yields its fragments and ends cleanly, or it yields some fragments and then
raises with a message. -/
inductive BackendStream where
  | ok (fragments : List String)
  | raises (fragments : List String) (message : String)

/-- Behaviour of artifact persistence for one execution: either the save
succeeds, supplying the uuid-derived identifier and timestamp it generates,
or it raises with a message. -/
inductive SaveOutcome where
  | ok (artifact_id : String) (timestamp : ℕ) (timestamp_str : String)
  | raises (message : String)

/-- The relay loop: for each fragment, append it to the accumulator and emit
a token event carrying the fragment verbatim.  Returns the emitted events and
the final accumulated content. -/
def relay_fragments : List String → String → List StreamEvent × String
  | [], accumulated_content => ([], accumulated_content)
  | tok :: rest, accumulated_content =>
      let (events, final) := relay_fragments rest (accumulated_content ++ tok)
      (StreamEvent.token tok :: events, final)

/-- The SSE event generator of stream_agent_response: set the status to
streaming, build the full prompt, relay the backend fragments, and finish
with either artifact persistence, usage summary, completed status and a
complete event, or with error status and a single error event.  The derived
temperature of the stored prompt components parametrises the backend call and
is absorbed into the BackendStream oracle. -/
def event_generator (execs : Registry) (execution_id : String)
    (request : AgentExecutionRequest) (prompt_components : PromptComponents)
    (backend : BackendStream) (save : SaveOutcome) (store : ArtifactStore) :
    List StreamEvent × Registry × ArtifactStore :=
  let execs1 := updateTable execs execution_id fun r => { r with status := "streaming" }
  let full_prompt := build_full_prompt request.agent_role request.xy_position.x
      request.xy_position.y request.query
  match backend with
  | BackendStream.raises fragments message =>
      let (events, _) := relay_fragments fragments ""
      (events ++ [StreamEvent.error message],
       updateTable execs1 execution_id fun r =>
         { r with status := "error", error := some message },
       store)
  | BackendStream.ok fragments =>
      let (events, accumulated_content) := relay_fragments fragments ""
      match save with
      | SaveOutcome.raises message =>
          (events ++ [StreamEvent.error message],
           updateTable execs1 execution_id fun r =>
             { r with status := "error", error := some message },
           store)
      | SaveOutcome.ok artifact_id timestamp timestamp_str =>
          let (artifact, store2) := save_artifact store accumulated_content
              request.agent_role "markdown" artifact_id timestamp timestamp_str
          let usage := get_usage_summary full_prompt accumulated_content
          (events ++ [StreamEvent.complete artifact.artifact_id usage],
           updateTable execs1 execution_id fun r =>
             { r with status := "completed", artifact_id := some artifact.artifact_id },
           store2)

/-- The stream endpoint: 404 when the execution identifier is unknown,
otherwise run the event generator for the stored execution.  There is no
check on the stored status. -/
def stream_agent_response (execs : Registry) (execution_id : String)
    (backend : BackendStream) (save : SaveOutcome) (store : ArtifactStore) :
    Except ℕ (List StreamEvent × Registry × ArtifactStore) :=
  match lookupTable execs execution_id with
  | none => Except.error 404
  | some execution =>
      Except.ok (event_generator execs execution_id execution.request
        execution.prompt_components backend save store)

/-- The execute endpoint: validate the request, build the prompt components,
store a pending execution record, and return the response.  The generated
execution identifier and the creation timestamp are passed in as arguments.
On validation failure the registry is returned unchanged. -/
def execute_agent (execs : Registry) (execution_id : String) (created_at : ℕ)
    (query : String) (x y : ℚ) (agent_role : String) :
    Except String AgentExecutionResponse × Registry :=
  match parse_request query x y agent_role with
  | Except.error e => (Except.error e, execs)
  | Except.ok request =>
      let components := build_prompt_components request.agent_role
          request.xy_position.x request.xy_position.y request.query
      let record : ExecutionRecord :=
        { request := request
          prompt_components := components
          status := "pending"
          created_at := created_at }
      (Except.ok
        { execution_id := execution_id
          prompt_components := components
          stream_url := "/api/v1/agent/stream/" ++ execution_id },
       insertTable execs execution_id record)

/-- The preview endpoint: validate the request and return the prompt
components without touching any state. -/
def preview_prompt (query : String) (x y : ℚ) (agent_role : String) :
    Except String PromptComponents :=
  match parse_request query x y agent_role with
  | Except.error e => Except.error e
  | Except.ok request =>
      Except.ok (build_prompt_components request.agent_role
        request.xy_position.x request.xy_position.y request.query)

/-! ## Concrete demonstration values -/

/-- A concrete validated request used in concrete runs. -/
def demo_request : AgentExecutionRequest :=
  { query := "Analyze Q4 risk"
    xy_position := { x := 0.5, y := 0.5 }
    agent_role := "analyst" }

/-- The prompt components the execute endpoint would store for demo_request. -/
def demo_components : PromptComponents :=
  build_prompt_components "analyst" 0.5 0.5 "Analyze Q4 risk"

/-- A stored execution record for demo_request at a given status. -/
def demo_record (status : String) : ExecutionRecord :=
  { request := demo_request
    prompt_components := demo_components
    status := status
    created_at := 0 }

/-- A registry holding one execution at a given status. -/
def demo_registry (status : String) : Registry :=
  [("exec_1", demo_record status)]

/-! ## Helper lemmas -/

/-- Looking up a key immediately after inserting it returns the new value. -/
theorem lookupTable_insertTable_self {α : Type} (store : List (String × α))
    (key : String) (value : α) :
    lookupTable (insertTable store key value) key = some value := by
  induction store with
  | nil => simp [insertTable, lookupTable]
  | cons hd tl ih =>
      obtain ⟨k, v⟩ := hd
      by_cases hk : k = key
      · simp [insertTable, lookupTable, hk]
      · simp [insertTable, lookupTable, hk, ih]

/-- Looking up a key after an in-place update applies the update to the old
value. -/
theorem lookupTable_updateTable_self {α : Type} (store : List (String × α))
    (key : String) (f : α → α) :
    lookupTable (updateTable store key f) key = (lookupTable store key).map f := by
  induction store with
  | nil => simp [updateTable, lookupTable]
  | cons hd tl ih =>
      obtain ⟨k, v⟩ := hd
      by_cases hk : k = key
      · simp [updateTable, lookupTable, hk]
      · simp [updateTable, lookupTable, hk, ih]

/-- The relay loop emits one token event per fragment, in order, and
accumulates the fragments left to right. -/
theorem relay_fragments_eq (fragments : List String) (accumulated : String) :
    relay_fragments fragments accumulated =
      (fragments.map StreamEvent.token,
       fragments.foldl (fun r s => r ++ s) accumulated) := by
  induction fragments generalizing accumulated with
  | nil => rfl
  | cons t ts ih => simp [relay_fragments, ih]

/-- The accumulator of the relay loop, started empty, is the concatenation of
the fragments. -/
theorem relay_fragments_join (fragments : List String) :
    (relay_fragments fragments "").2 = String.join fragments := by
  rw [relay_fragments_eq]
  rfl

/-! ## Claims about the steering engine and usage estimator -/

/-- C4: for every creativity value y the temperature of the derived prompt
bundle equals 0.2 + y * 0.7 exactly (in particular 0 gives 0.2, 1 gives 0.9,
0.1 gives 0.27 and 0.9 gives 0.83), independent of density, persona and
query.  Arithmetic is modelled over the exact rationals. -/
theorem C4_temperature_linear :
    (∀ (agent_role : String) (x y : ℚ) (user_query : String),
        (build_prompt_components agent_role x y user_query).temperature = 0.2 + y * 0.7)
    ∧ get_temperature 0 = 0.2 ∧ get_temperature 1 = 0.9
    ∧ get_temperature 0.1 = 0.27 ∧ get_temperature 0.9 = 0.83 := by
  refine ⟨fun agent_role x y user_query => rfl, ?_, ?_, ?_, ?_⟩ <;>
    norm_num [get_temperature]

/-- C5: on the unit square the density instruction is exactly one of three
fixed blocks selected by the thresholds 0.3 and 0.7 on x, the creativity
instruction likewise on y, the boundary values select the upper tier, and
the three blocks of each axis are pairwise distinct (a step function, no
interpolation). -/
theorem C5_step_function_tiers (x y : ℚ)
    (hx0 : 0 ≤ x) (hx1 : x ≤ 1) (hy0 : 0 ≤ y) (hy1 : y ≤ 1) :
    ((x < 0.3 → get_density_instruction x = DENSITY_EXECUTIVE_SUMMARY)
      ∧ (0.3 ≤ x → x < 0.7 → get_density_instruction x = DENSITY_DETAILED_REPORT)
      ∧ (0.7 ≤ x → get_density_instruction x = DENSITY_RAW_VERBOSE))
    ∧ ((y < 0.3 → get_creativity_instruction y = CREATIVITY_STRICTLY_FACTUAL)
      ∧ (0.3 ≤ y → y < 0.7 → get_creativity_instruction y = CREATIVITY_BALANCED_INSIGHT)
      ∧ (0.7 ≤ y → get_creativity_instruction y = CREATIVITY_SPECULATIVE_CREATIVE))
    ∧ get_density_instruction 0.3 = DENSITY_DETAILED_REPORT
    ∧ get_density_instruction 0.7 = DENSITY_RAW_VERBOSE
    ∧ get_creativity_instruction 0.3 = CREATIVITY_BALANCED_INSIGHT
    ∧ get_creativity_instruction 0.7 = CREATIVITY_SPECULATIVE_CREATIVE
    ∧ DENSITY_EXECUTIVE_SUMMARY ≠ DENSITY_DETAILED_REPORT
    ∧ DENSITY_EXECUTIVE_SUMMARY ≠ DENSITY_RAW_VERBOSE
    ∧ DENSITY_DETAILED_REPORT ≠ DENSITY_RAW_VERBOSE
    ∧ CREATIVITY_STRICTLY_FACTUAL ≠ CREATIVITY_BALANCED_INSIGHT
    ∧ CREATIVITY_STRICTLY_FACTUAL ≠ CREATIVITY_SPECULATIVE_CREATIVE
    ∧ CREATIVITY_BALANCED_INSIGHT ≠ CREATIVITY_SPECULATIVE_CREATIVE := by
  refine ⟨⟨?_, ?_, ?_⟩, ⟨?_, ?_, ?_⟩, ?_, ?_, ?_, ?_, ?_, ?_, ?_, ?_, ?_, ?_⟩
  · intro h
    rw [get_density_instruction, if_pos h]
  · intro h1 h2
    rw [get_density_instruction, if_neg (not_lt.mpr h1), if_pos h2]
  · intro h
    rw [get_density_instruction, if_neg (by linarith), if_neg (not_lt.mpr h)]
  · intro h
    rw [get_creativity_instruction, if_pos h]
  · intro h1 h2
    rw [get_creativity_instruction, if_neg (not_lt.mpr h1), if_pos h2]
  · intro h
    rw [get_creativity_instruction, if_neg (by linarith), if_neg (not_lt.mpr h)]
  · rw [get_density_instruction, if_neg (by norm_num), if_pos (by norm_num)]
  · rw [get_density_instruction, if_neg (by norm_num), if_neg (by norm_num)]
  · rw [get_creativity_instruction, if_neg (by norm_num), if_pos (by norm_num)]
  · rw [get_creativity_instruction, if_neg (by norm_num), if_neg (by norm_num)]
  all_goals decide

/-- Witness for C5 at the concrete position (0.5, 0.5). -/
theorem C5_witness :
    get_density_instruction 0.5 = DENSITY_DETAILED_REPORT
    ∧ get_creativity_instruction 0.5 = CREATIVITY_BALANCED_INSIGHT := by
  have h := C5_step_function_tiers 0.5 0.5 (by norm_num) (by norm_num)
    (by norm_num) (by norm_num)
  exact ⟨h.1.2.1 (by norm_num) (by norm_num), h.2.1.2.1 (by norm_num) (by norm_num)⟩

/-- C6: the usage summary has prompt_tokens = len(a)/4, completion_tokens =
len(b)/4, total their sum, and cost the documented price formula rounded to
six decimal places; it depends only on the character lengths; empty inputs
give the all-zero summary. -/
theorem C6_usage_summary (a b : String) :
    get_usage_summary a b =
      { prompt_tokens := a.length / 4
        completion_tokens := b.length / 4
        total_tokens := a.length / 4 + b.length / 4
        estimated_cost :=
          round6 ((((a.length / 4 : ℕ) : ℚ) / 1000) * COST_PER_1K_INPUT
            + (((b.length / 4 : ℕ) : ℚ) / 1000) * COST_PER_1K_OUTPUT) }
    ∧ (∀ a2 b2 : String, a.length = a2.length → b.length = b2.length →
        get_usage_summary a b = get_usage_summary a2 b2)
    ∧ get_usage_summary "" "" =
        { prompt_tokens := 0, completion_tokens := 0, total_tokens := 0,
          estimated_cost := 0 } := by
  refine ⟨rfl, ?_, ?_⟩
  · intro a2 b2 ha hb
    simp [get_usage_summary, estimate_tokens, ha, hb]
  · norm_num [get_usage_summary, estimate_tokens, calculate_cost, round6]

/-- Witness for C6: two pairs of texts of equal lengths give equal summaries. -/
theorem C6_witness :
    ("abcdefgh" : String).length = ("12345678" : String).length
    ∧ get_usage_summary "abcdefgh" "xy" = get_usage_summary "12345678" "zw" :=
  ⟨by decide, (C6_usage_summary "abcdefgh" "xy").2.1 "12345678" "zw" (by decide) (by decide)⟩

/-- C7: the assembled final system instruction is the concatenation, in fixed
order, of persona base text, creativity block, density block and the fixed
constraints block. -/
theorem C7_prompt_assembly_order (agent_role : String) (x y : ℚ) (user_query : String) :
    (build_prompt_components agent_role x y user_query).final_system_prompt =
      BASE_PROMPTS_get agent_role ++ "\n\n" ++ get_creativity_instruction y
        ++ "\n\n" ++ get_density_instruction x ++ "\n\n" ++ CONSTRAINTS_BLOCK := rfl

/-- C8: an agent_role outside the closed enumeration does not fail; it falls
back to the analyst base prompt and yields the same bundle as the default
persona at the same position and query. -/
theorem C8_unknown_role_falls_back (agent_role : String) (x y : ℚ) (user_query : String)
    (h1 : agent_role ≠ "analyst") (h2 : agent_role ≠ "writer")
    (h3 : agent_role ≠ "researcher") :
    (build_prompt_components agent_role x y user_query).base_prompt = BASE_PROMPT_ANALYST
    ∧ build_prompt_components agent_role x y user_query =
        build_prompt_components "analyst" x y user_query := by
  have hbase : BASE_PROMPTS_get agent_role = BASE_PROMPT_ANALYST := by
    simp [BASE_PROMPTS_get, h1, h2, h3]
  have hbase2 : BASE_PROMPTS_get "analyst" = BASE_PROMPT_ANALYST := by
    simp [BASE_PROMPTS_get]
  constructor
  · simp [build_prompt_components, hbase]
  · simp [build_prompt_components, hbase, hbase2]

/-- Witness for C8 with the unrecognized role "pirate". -/
theorem C8_witness :
    build_prompt_components "pirate" 0.5 0.5 "q" =
      build_prompt_components "analyst" 0.5 0.5 "q" :=
  (C8_unknown_role_falls_back "pirate" 0.5 0.5 "q" (by decide) (by decide) (by decide)).2

/-! ## Equation lemmas for the streaming orchestrator -/

/-- The events of the relay loop, started empty. -/
theorem relay_fragments_events (fragments : List String) :
    (relay_fragments fragments "").1 = fragments.map StreamEvent.token := by
  rw [relay_fragments_eq]

/-- When the execution exists the stream endpoint runs the event generator. -/
theorem stream_agent_response_of_lookup (execs : Registry) (execution_id : String)
    (rec : ExecutionRecord) (backend : BackendStream) (save : SaveOutcome)
    (store : ArtifactStore) (h : lookupTable execs execution_id = some rec) :
    stream_agent_response execs execution_id backend save store =
      Except.ok (event_generator execs execution_id rec.request rec.prompt_components
        backend save store) := by
  unfold stream_agent_response
  rw [h]

/-- Unfolding of the event generator on the backend-failure path. -/
theorem event_generator_raises_eq (execs : Registry) (execution_id : String)
    (request : AgentExecutionRequest) (prompt_components : PromptComponents)
    (fragments : List String) (message : String) (save : SaveOutcome)
    (store : ArtifactStore) :
    event_generator execs execution_id request prompt_components
        (BackendStream.raises fragments message) save store =
      ((relay_fragments fragments "").1 ++ [StreamEvent.error message],
       updateTable
         (updateTable execs execution_id fun r => { r with status := "streaming" })
         execution_id (fun r => { r with status := "error", error := some message }),
       store) := rfl

/-- Unfolding of the event generator on the persistence-failure path. -/
theorem event_generator_save_raises_eq (execs : Registry) (execution_id : String)
    (request : AgentExecutionRequest) (prompt_components : PromptComponents)
    (fragments : List String) (message : String) (store : ArtifactStore) :
    event_generator execs execution_id request prompt_components
        (BackendStream.ok fragments) (SaveOutcome.raises message) store =
      ((relay_fragments fragments "").1 ++ [StreamEvent.error message],
       updateTable
         (updateTable execs execution_id fun r => { r with status := "streaming" })
         execution_id (fun r => { r with status := "error", error := some message }),
       store) := rfl

/-- Unfolding of the event generator on the success path. -/
theorem event_generator_success_eq (execs : Registry) (execution_id : String)
    (request : AgentExecutionRequest) (prompt_components : PromptComponents)
    (fragments : List String) (artifact_id : String) (timestamp : ℕ)
    (timestamp_str : String) (store : ArtifactStore) :
    event_generator execs execution_id request prompt_components
        (BackendStream.ok fragments) (SaveOutcome.ok artifact_id timestamp timestamp_str)
        store =
      ((relay_fragments fragments "").1
         ++ [StreamEvent.complete artifact_id
              (get_usage_summary
                (build_full_prompt request.agent_role request.xy_position.x
                  request.xy_position.y request.query)
                (relay_fragments fragments "").2)],
       updateTable
         (updateTable execs execution_id fun r => { r with status := "streaming" })
         execution_id
         (fun r => { r with status := "completed", artifact_id := some artifact_id }),
       (save_artifact store (relay_fragments fragments "").2 request.agent_role "markdown"
         artifact_id timestamp timestamp_str).2) := rfl

/-! ## Claims about the execution lifecycle -/

/-- Counterexample for C1 as stated: an execution whose record has status
"completed" (so not "pending") is streamed again rather than rejected — the
stream request succeeds and events are produced. -/
theorem C1_counterexample :
    (lookupTable (demo_registry "completed") "exec_1").map (fun r => r.status)
      = some "completed"
    ∧ (stream_agent_response (demo_registry "completed") "exec_1"
        (BackendStream.ok ["hi"]) (SaveOutcome.ok "art_1" 0 "20240101_000000")
        []).isOk = true
    ∧ ((stream_agent_response (demo_registry "completed") "exec_1"
        (BackendStream.ok ["hi"]) (SaveOutcome.ok "art_1" 0 "20240101_000000")
        []).toOption.map (fun out => out.1.length)) = some 2 :=
  ⟨rfl, rfl, rfl⟩

/-- C1 (amended): streaming an unknown identifier fails with a not-found
condition (HTTP 404) before any event is produced; for an existing execution
no status precondition is enforced — the request is accepted regardless of
the stored status, so a second stream request after the execution has left
"pending" streams it again instead of failing. -/
theorem C1_stream_precondition (execs : Registry) (execution_id : String)
    (backend : BackendStream) (save : SaveOutcome) (store : ArtifactStore) :
    (lookupTable execs execution_id = none →
      stream_agent_response execs execution_id backend save store = Except.error 404)
    ∧ (∀ rec : ExecutionRecord, lookupTable execs execution_id = some rec →
        (stream_agent_response execs execution_id backend save store).isOk = true) := by
  constructor
  · intro h
    unfold stream_agent_response
    rw [h]
  · intro rec h
    rw [stream_agent_response_of_lookup execs execution_id rec backend save store h]
    rfl

/-- Witness for the amended C1: an unknown identifier yields 404, and an
execution already in status "completed" is accepted for streaming. -/
theorem C1_witness :
    stream_agent_response [] "missing" (BackendStream.ok []) (SaveOutcome.raises "m") []
      = Except.error 404
    ∧ (stream_agent_response (demo_registry "completed") "exec_1" (BackendStream.ok [])
        (SaveOutcome.raises "m") []).isOk = true :=
  ⟨(C1_stream_precondition [] "missing" (BackendStream.ok []) (SaveOutcome.raises "m")
      []).1 rfl,
   (C1_stream_precondition (demo_registry "completed") "exec_1" (BackendStream.ok [])
      (SaveOutcome.raises "m") []).2 (demo_record "completed") rfl⟩

/-- Counterexample for C2 as stated: after a failure during streaming the
execution record holds the literal status "error", not "errored". -/
theorem C2_counterexample :
    ((stream_agent_response (demo_registry "pending") "exec_1"
        (BackendStream.raises ["Hel"] "Gemini API error: boom")
        (SaveOutcome.raises "unused") []).toOption.map
      (fun out => (lookupTable out.2.1 "exec_1").map (fun r => (r.status, r.error))))
      = some (some ("error", some "Gemini API error: boom"))
    ∧ ("error" : String) ≠ "errored" :=
  ⟨rfl, by decide⟩

/-- C2 (amended: the terminal status string the code records is "error", not
"errored"): when the backend raises, or artifact persistence raises, the
stream is the already-relayed token events followed by exactly one final
error event carrying the failure description, the execution record moves to
status "error" with the description attached, and the artifact store is
unchanged — the partial accumulated output is not persisted. -/
theorem C2_error_path (execs : Registry) (execution_id : String)
    (rec : ExecutionRecord) (fragments : List String) (message : String)
    (save : SaveOutcome) (store : ArtifactStore)
    (h : lookupTable execs execution_id = some rec) :
    (∃ registry2,
      stream_agent_response execs execution_id
          (BackendStream.raises fragments message) save store
        = Except.ok (fragments.map StreamEvent.token ++ [StreamEvent.error message],
            registry2, store)
      ∧ (lookupTable registry2 execution_id).map (fun r => (r.status, r.error))
          = some ("error", some message))
    ∧ (∃ registry2,
      stream_agent_response execs execution_id
          (BackendStream.ok fragments) (SaveOutcome.raises message) store
        = Except.ok (fragments.map StreamEvent.token ++ [StreamEvent.error message],
            registry2, store)
      ∧ (lookupTable registry2 execution_id).map (fun r => (r.status, r.error))
          = some ("error", some message)) := by
  constructor
  · refine ⟨updateTable
        (updateTable execs execution_id fun r => { r with status := "streaming" })
        execution_id (fun r => { r with status := "error", error := some message }),
        ?_, ?_⟩
    · rw [stream_agent_response_of_lookup execs execution_id rec _ _ _ h,
        event_generator_raises_eq, relay_fragments_events]
    · rw [lookupTable_updateTable_self, lookupTable_updateTable_self, h]
      rfl
  · refine ⟨updateTable
        (updateTable execs execution_id fun r => { r with status := "streaming" })
        execution_id (fun r => { r with status := "error", error := some message }),
        ?_, ?_⟩
    · rw [stream_agent_response_of_lookup execs execution_id rec _ _ _ h,
        event_generator_save_raises_eq, relay_fragments_events]
    · rw [lookupTable_updateTable_self, lookupTable_updateTable_self, h]
      rfl

/-- Witness for the amended C2 on a backend failure after one fragment. -/
theorem C2_witness :
    (stream_agent_response (demo_registry "pending") "exec_1"
        (BackendStream.raises ["Hello"] "boom") (SaveOutcome.raises "unused")
        []).isOk = true := by
  obtain ⟨⟨registry2, h1, _⟩, _⟩ := C2_error_path (demo_registry "pending") "exec_1"
    (demo_record "pending") ["Hello"] "boom" (SaveOutcome.raises "unused") [] rfl
  rw [h1]
  rfl

/-- C3: when the backend stream ends cleanly the consumer observes one token
event per fragment, verbatim and in arrival order, followed by exactly one
complete event whose artifact identifier names a newly created artifact whose
content is the concatenation of the fragments in order; the usage summary in
the complete event is computed over the full prompt text and the accumulated
output, and the record becomes "completed" with the artifact identifier
attached. -/
theorem C3_success_stream (execs : Registry) (execution_id : String)
    (rec : ExecutionRecord) (fragments : List String) (artifact_id : String)
    (timestamp : ℕ) (timestamp_str : String) (store : ArtifactStore)
    (h : lookupTable execs execution_id = some rec)
    (hfresh : lookupTable store artifact_id = none) :
    ∃ registry2 store2,
      stream_agent_response execs execution_id (BackendStream.ok fragments)
          (SaveOutcome.ok artifact_id timestamp timestamp_str) store
        = Except.ok
            (fragments.map StreamEvent.token
               ++ [StreamEvent.complete artifact_id
                    (get_usage_summary
                      (build_full_prompt rec.request.agent_role rec.request.xy_position.x
                        rec.request.xy_position.y rec.request.query)
                      (String.join fragments))],
             registry2, store2)
      ∧ get_artifact store artifact_id
          = Except.error ("Artifact " ++ artifact_id ++ " not found")
      ∧ (∃ meta : ArtifactMetadata,
          get_artifact store2 artifact_id = Except.ok meta
          ∧ meta.content = String.join fragments
          ∧ meta.agent_role = rec.request.agent_role)
      ∧ (lookupTable registry2 execution_id).map (fun r => (r.status, r.artifact_id))
          = some ("completed", some artifact_id) := by
  refine ⟨updateTable
      (updateTable execs execution_id fun r => { r with status := "streaming" })
      execution_id
      (fun r => { r with status := "completed", artifact_id := some artifact_id }),
    (save_artifact store (String.join fragments) rec.request.agent_role "markdown"
      artifact_id timestamp timestamp_str).2, ?_, ?_, ?_, ?_⟩
  · rw [stream_agent_response_of_lookup execs execution_id rec _ _ _ h,
      event_generator_success_eq, relay_fragments_events, relay_fragments_join]
  · unfold get_artifact
    rw [hfresh]
  · refine ⟨(save_artifact store (String.join fragments) rec.request.agent_role "markdown"
      artifact_id timestamp timestamp_str).1, ?_, rfl, rfl⟩
    unfold get_artifact
    rw [show (save_artifact store (String.join fragments) rec.request.agent_role "markdown"
        artifact_id timestamp timestamp_str).2
        = insertTable store artifact_id
            (save_artifact store (String.join fragments) rec.request.agent_role "markdown"
              artifact_id timestamp timestamp_str).1 from rfl,
      lookupTable_insertTable_self]
  · rw [lookupTable_updateTable_self, lookupTable_updateTable_self, h]
    rfl

/-- Witness for C3 with fragments ["Hello", " world"]. -/
theorem C3_witness :
    (stream_agent_response (demo_registry "pending") "exec_1"
        (BackendStream.ok ["Hello", " world"])
        (SaveOutcome.ok "art_1" 3 "20240101_000000") []).isOk = true := by
  obtain ⟨registry2, store2, h1, -, -, -⟩ := C3_success_stream (demo_registry "pending")
    "exec_1" (demo_record "pending") ["Hello", " world"] "art_1" 3 "20240101_000000" []
    rfl rfl
  rw [h1]
  rfl

/-- C9: a preview or execute request whose density or creativity lies outside
the closed unit interval is rejected with a validation error; no execution
record is created (the registry is returned unchanged) and there is no other
side effect. -/
theorem C9_out_of_range_rejected (execs : Registry) (execution_id : String)
    (created_at : ℕ) (query : String) (x y : ℚ) (agent_role : String)
    (h : x < 0 ∨ 1 < x ∨ y < 0 ∨ 1 < y) :
    (∃ e, (execute_agent execs execution_id created_at query x y agent_role).1
        = Except.error e)
    ∧ (execute_agent execs execution_id created_at query x y agent_role).2 = execs
    ∧ (∃ e, preview_prompt query x y agent_role = Except.error e) := by
  have hparse : ∃ e, parse_request query x y agent_role = Except.error e := by
    unfold parse_request
    by_cases h1 : query.length < 1
    · exact ⟨_, by rw [if_pos h1]⟩
    · rw [if_neg h1]
      by_cases h2 : 2000 < query.length
      · exact ⟨_, by rw [if_pos h2]⟩
      · rw [if_neg h2]
        rcases h with hx | hx | hy | hy
        · exact ⟨_, by rw [if_neg (by intro hc; linarith [hc.1])]⟩
        · exact ⟨_, by rw [if_neg (by intro hc; linarith [hc.2])]⟩
        · by_cases h3 : 0 ≤ x ∧ x ≤ 1
          · exact ⟨_, by rw [if_pos h3, if_neg (by intro hc; linarith [hc.1])]⟩
          · exact ⟨_, by rw [if_neg h3]⟩
        · by_cases h3 : 0 ≤ x ∧ x ≤ 1
          · exact ⟨_, by rw [if_pos h3, if_neg (by intro hc; linarith [hc.2])]⟩
          · exact ⟨_, by rw [if_neg h3]⟩
  obtain ⟨e, he⟩ := hparse
  refine ⟨⟨e, ?_⟩, ?_, ⟨e, ?_⟩⟩
  · unfold execute_agent
    rw [he]
  · unfold execute_agent
    rw [he]
  · unfold preview_prompt
    rw [he]

/-- Witness for C9 at the out-of-range density 1.5. -/
theorem C9_witness :
    (execute_agent [] "exec_1" 0 "q" (3/2) 0.5 "analyst").2 = [] :=
  (C9_out_of_range_rejected [] "exec_1" 0 "q" (3/2) 0.5 "analyst"
    (Or.inr (Or.inl (by norm_num)))).2.1

/-- C10: save_artifact returns metadata whose content equals the saved
content, whose size is its UTF-8 byte length and whose identifier is the
generated one, and a subsequent get_artifact with that identifier returns
exactly that metadata record. -/
theorem C10_save_get_roundtrip (store : ArtifactStore)
    (content agent_role file_type artifact_id : String) (timestamp : ℕ)
    (timestamp_str : String)
    (h : file_type = "markdown" ∨ file_type = "json" ∨ file_type = "text") :
    ((save_artifact store content agent_role file_type artifact_id timestamp
        timestamp_str).1).content = content
    ∧ ((save_artifact store content agent_role file_type artifact_id timestamp
        timestamp_str).1).size_bytes = content.utf8ByteSize
    ∧ ((save_artifact store content agent_role file_type artifact_id timestamp
        timestamp_str).1).artifact_id = artifact_id
    ∧ get_artifact
        (save_artifact store content agent_role file_type artifact_id timestamp
          timestamp_str).2 artifact_id
      = Except.ok (save_artifact store content agent_role file_type artifact_id timestamp
          timestamp_str).1 := by
  refine ⟨rfl, rfl, rfl, ?_⟩
  have hl : lookupTable
      (save_artifact store content agent_role file_type artifact_id timestamp
        timestamp_str).2 artifact_id
      = some (save_artifact store content agent_role file_type artifact_id timestamp
          timestamp_str).1 :=
    lookupTable_insertTable_self store artifact_id _
  unfold get_artifact
  rw [hl]

/-- Witness for C10 on a small markdown artifact. -/
theorem C10_witness :
    get_artifact
        (save_artifact [] "# Hello" "analyst" "markdown" "art_1" 5 "20240101_000000").2
        "art_1"
      = Except.ok (save_artifact [] "# Hello" "analyst" "markdown" "art_1" 5
          "20240101_000000").1 :=
  (C10_save_get_roundtrip [] "# Hello" "analyst" "markdown" "art_1" 5 "20240101_000000"
    (Or.inl rfl)).2.2.2

end AgentSynapse
